import Mathlib

/-!
Verification development for the budget and savings subsystem of a
personal-finance backend (Django).  The definitions below are a shallow
embedding of the code in project_apps/transactions, project_apps/budgets and
project_apps/savings: Decimal money amounts are embedded as rationals (all
arithmetic the code performs on them is exact), users and categories as
numeric identifiers, datetimes either as integers (where only the order
matters) or as a calendar record (where month arithmetic matters), and
database tables as lists of rows.
-/

namespace FinanceApp

/-- transaction type choices of the Transaction model (transactions/models.py). -/
inductive TxType
  | income
  | expense
deriving DecidableEq, Repr

/-- a row of the Transaction model (transactions/models.py).  The category is
a nullable foreign key, embedded as an optional identifier; the DateField is
embedded as an integer day number. -/
structure Transaction where
  pk : Nat
  user : Nat
  category : Option Nat
  type : TxType
  amount : ℚ
  date : ℤ
deriving DecidableEq, Repr

/-- status choices of the Budget model (budgets/models.py). -/
inductive BudgetStatus
  | active
  | paused
  | completed
  | archived
deriving DecidableEq, Repr

/-- period choices of the Budget model (budgets/models.py). -/
inductive Period
  | monthly
  | quarterly
  | yearly
deriving DecidableEq, Repr

/-- a row of the Budget model (budgets/models.py).  The time type of the
period bounds is a parameter: the recalculation logic only compares dates,
while advance_period needs calendar structure.  Fields not touched by the
verified operations (color, email or sms alert flags, timestamps) are
omitted. -/
structure Budget (T : Type) where
  id : Nat
  user : Nat
  category : Nat
  limit : ℚ
  spent : ℚ
  period : Period
  alert_threshold : ℚ
  status : BudgetStatus
  period_start : T
  period_end : T
deriving DecidableEq, Repr

variable {T : Type}

/-- Budget.percentage_used (budgets/models.py lines 117-122): zero when the
limit is zero, otherwise spent over limit times one hundred. -/
def Budget.percentage_used (b : Budget T) : ℚ :=
  if b.limit = 0 then 0 else b.spent / b.limit * 100

/-- Budget.is_over_budget (budgets/models.py lines 124-127): spent strictly
above the limit. -/
def Budget.is_over_budget (b : Budget T) : Bool :=
  decide (b.limit < b.spent)

/-- Budget.is_alert_threshold_reached (budgets/models.py lines 129-132). -/
def Budget.is_alert_threshold_reached (b : Budget T) : Bool :=
  decide (b.alert_threshold ≤ b.percentage_used)

/-- assignment of a new spent value followed by save, as performed by
recalc_budget (budgets/signals.py lines 32-33).  Django save performs no
validation here, so the operation is total. -/
def Budget.updateSpent (b : Budget T) (v : ℚ) : Budget T :=
  { b with spent := v }

/-- the transaction filter of recalc_budget (budgets/signals.py lines 24-29):
same user, same category, type expense, date within the period bounds of the
budget. -/
def matchesBudgetExpense (u c : Nat) (ps pe : ℤ) (t : Transaction) : Prop :=
  t.user = u ∧ t.category = some c ∧ t.type = TxType.expense ∧ ps ≤ t.date ∧ t.date ≤ pe

instance (u c : Nat) (ps pe : ℤ) (t : Transaction) : Decidable (matchesBudgetExpense u c ps pe t) := by
  unfold matchesBudgetExpense
  infer_instance

/-- the aggregate Sum of recalc_budget (budgets/signals.py lines 24-30); the
value is zero when no transaction matches, mirroring the or-Decimal-zero
fallback of the source. -/
def expenseTotal (txs : List Transaction) (u c : Nat) (ps pe : ℤ) : ℚ :=
  ((txs.filter fun t => decide (matchesBudgetExpense u c ps pe t)).map Transaction.amount).sum

/-- the budget lookup of recalc_budget (budgets/signals.py lines 18-22): the
active budget of the given user and category.  The database enforces at most
one such row via the unique_together constraint on user, category, status. -/
def recalcTarget (u c : Nat) (b : Budget ℤ) : Prop :=
  b.user = u ∧ b.category = c ∧ b.status = BudgetStatus.active

instance (u c : Nat) (b : Budget ℤ) : Decidable (recalcTarget u c b) := by
  unfold recalcTarget
  infer_instance

/-- the effect of recalc_budget on a single budget row: a matching row gets
its spent recomputed from the transaction table, any other row is left
alone. -/
def recalcOne (txs : List Transaction) (u c : Nat) (b : Budget ℤ) : Budget ℤ :=
  if recalcTarget u c b then
    b.updateSpent (expenseTotal txs u c b.period_start b.period_end)
  else b

/-- the state of the budgets application: the transaction table and the
budget table. -/
structure DB where
  transactions : List Transaction
  budgets : List (Budget ℤ)
deriving DecidableEq, Repr

/-- recalc_budget (budgets/signals.py lines 10-41).  A missing category
returns immediately; otherwise the active budget of the user and category is
updated with the recomputed expense total.  The alert side effect is embedded
separately in budgetAlertAfterRecalc. -/
def recalc_budget (db : DB) (u : Nat) (cat : Option Nat) : DB :=
  match cat with
  | none => db
  | some c => { db with budgets := db.budgets.map (recalcOne db.transactions u c) }

/-- alert type choices of the BudgetAlert model (budgets/models.py). -/
inductive AlertType
  | threshold
  | exceeded
  | period_end
deriving DecidableEq, Repr

/-- a row of the BudgetAlert model, keyed by the id of its budget.  The
created_at timestamp is embedded as an integer number of seconds. -/
structure BudgetAlert where
  budget : Nat
  alert_type : AlertType
  created_at : ℤ
deriving DecidableEq, Repr

/-- the deduplication query of create_budget_alert (budgets/tasks.py lines
324-329): an alert of the same type for the same budget created within the
last six hours, that is 21600 seconds. -/
def recentAlertOfType (alerts : List BudgetAlert) (bid : Nat) (ty : AlertType) (now : ℤ) : Bool :=
  alerts.any fun a =>
    decide (a.budget = bid) && decide (a.alert_type = ty) && decide (now - 21600 ≤ a.created_at)

/-- create_budget_alert (budgets/tasks.py lines 309-349): picks exceeded when
the budget is over its limit, otherwise threshold when the alert threshold is
reached, otherwise does nothing; a new alert row is created only when no
recent alert of the same type exists. -/
def create_budget_alert (b : Budget T) (alerts : List BudgetAlert) (now : ℤ) : List BudgetAlert :=
  if b.is_over_budget then
    if recentAlertOfType alerts b.id AlertType.exceeded now then alerts
    else alerts ++ [{ budget := b.id, alert_type := AlertType.exceeded, created_at := now }]
  else if b.is_alert_threshold_reached then
    if recentAlertOfType alerts b.id AlertType.threshold now then alerts
    else alerts ++ [{ budget := b.id, alert_type := AlertType.threshold, created_at := now }]
  else alerts

/-- the alert trigger at the end of recalc_budget (budgets/signals.py lines
35-38) composed with the create_budget_alert task, run synchronously over the
freshly recomputed budget. -/
def budgetAlertAfterRecalc (b : Budget T) (alerts : List BudgetAlert) (now : ℤ) : List BudgetAlert :=
  if b.is_alert_threshold_reached || b.is_over_budget then create_budget_alert b alerts now
  else alerts

/-- a naive calendar datetime, mirroring the fields of a Python datetime that
set_period_dates manipulates (microseconds are always zeroed there and are
omitted). -/
structure SimpleDateTime where
  year : ℤ
  month : Nat
  day : Nat
  hour : Nat
  minute : Nat
  second : Nat
deriving DecidableEq, Repr

/-- leap year rule of the Gregorian calendar. -/
def isLeapYear (y : ℤ) : Bool :=
  (y % 4 == 0 && y % 100 != 0) || (y % 400 == 0)

/-- number of days of a month of the Gregorian calendar. -/
def daysInMonth (y : ℤ) (m : Nat) : Nat :=
  if m = 2 then (if isLeapYear y then 29 else 28)
  else if m = 4 ∨ m = 6 ∨ m = 9 ∨ m = 11 then 30
  else 31

/-- relativedelta month addition as used by set_period_dates: the receiver is
always the first day of a month, so no day clamping can occur. -/
def addMonthsFirstDay (d : SimpleDateTime) (k : Nat) : SimpleDateTime :=
  { d with
    year := d.year + ((d.month - 1 + k) / 12 : Nat)
    month := (d.month - 1 + k) % 12 + 1 }

/-- subtraction of one second from the midnight that starts the first day of
a month, as in the period_end expressions of set_period_dates: the result is
the last second of the previous month. -/
def minusOneSecondOfFirst (d : SimpleDateTime) : SimpleDateTime :=
  let py : ℤ := if d.month = 1 then d.year - 1 else d.year
  let pm : Nat := if d.month = 1 then 12 else d.month - 1
  { year := py, month := pm, day := daysInMonth py pm, hour := 23, minute := 59, second := 59 }

/-- the calendar successor of a datetime, one second later.  This definition
is independent of minusOneSecondOfFirst and serves as the specification-side
meaning of one second before. -/
def succSecond (d : SimpleDateTime) : SimpleDateTime :=
  if d.second < 59 then { d with second := d.second + 1 }
  else if d.minute < 59 then { d with second := 0, minute := d.minute + 1 }
  else if d.hour < 23 then { d with second := 0, minute := 0, hour := d.hour + 1 }
  else if d.day < daysInMonth d.year d.month then
    { d with second := 0, minute := 0, hour := 0, day := d.day + 1 }
  else if d.month < 12 then
    { d with second := 0, minute := 0, hour := 0, day := 1, month := d.month + 1 }
  else
    { year := d.year + 1, month := 1, day := 1, hour := 0, minute := 0, second := 0 }

/-- Budget.set_period_dates (budgets/models.py lines 96-110): period_start is
the first instant of the current month, quarter or year of now, period_end is
the start plus one, three or twelve months minus one second. -/
def set_period_dates (period : Period) (now : SimpleDateTime) : SimpleDateTime × SimpleDateTime :=
  match period with
  | Period.monthly =>
      let ps := { now with day := 1, hour := 0, minute := 0, second := 0 }
      (ps, minusOneSecondOfFirst (addMonthsFirstDay ps 1))
  | Period.quarterly =>
      let quarter := (now.month - 1) / 3 + 1
      let quarter_start_month := (quarter - 1) * 3 + 1
      let ps := { now with month := quarter_start_month, day := 1, hour := 0, minute := 0, second := 0 }
      (ps, minusOneSecondOfFirst (addMonthsFirstDay ps 3))
  | Period.yearly =>
      let ps := { now with month := 1, day := 1, hour := 0, minute := 0, second := 0 }
      (ps, minusOneSecondOfFirst (addMonthsFirstDay ps 12))

/-- Budget.advance_period (budgets/models.py lines 167-171): reset spent to
zero and recompute the period window from the current time. -/
def Budget.advance_period (b : Budget SimpleDateTime) (now : SimpleDateTime) : Budget SimpleDateTime :=
  { b with
    spent := 0
    period_start := (set_period_dates b.period now).1
    period_end := (set_period_dates b.period now).2 }

/-- number of months added by set_period_dates for each period choice. -/
def Period.numMonths : Period → Nat
  | Period.monthly => 1
  | Period.quarterly => 3
  | Period.yearly => 12

/-- transaction type choices of the SavingsTransaction model
(savings/models.py). -/
inductive SavTxType
  | deposit
  | withdrawal
  | auto_save
  | transfer
deriving DecidableEq, Repr

/-- a row of the SavingsTransaction model (savings/models.py lines 251-286).
Descriptions are omitted; the reference to the originating income transaction
is the optional primary key of that transaction. -/
structure SavingsTransaction where
  transaction_type : SavTxType
  amount : ℚ
  balance_before : ℚ
  balance_after : ℚ
  reference_transaction_id : Option Nat
deriving DecidableEq, Repr

/-- a row of the SavingsAccount model (savings/models.py lines 10-76),
together with its list of SavingsTransaction rows, oldest first. -/
structure SavingsAccount where
  balance : ℚ
  auto_save_percentage : ℚ
  is_auto_save_enabled : Bool
  transactions : List SavingsTransaction
deriving DecidableEq, Repr

/-- SavingsAccount.add_funds (savings/models.py lines 38-53): for a positive
amount the balance grows by the amount and a deposit row is recorded; any
other amount leaves the account untouched. -/
def SavingsAccount.add_funds (acct : SavingsAccount) (amount : ℚ) : SavingsAccount :=
  if 0 < amount then
    { acct with
      balance := acct.balance + amount
      transactions := acct.transactions ++
        [{ transaction_type := SavTxType.deposit
           amount := amount
           balance_before := acct.balance
           balance_after := acct.balance + amount
           reference_transaction_id := none }] }
  else acct

/-- SavingsAccount.withdraw_funds (savings/models.py lines 55-72): succeeds
returning true exactly when the amount is positive and covered by the
balance, in which case the balance shrinks by the amount and a withdrawal row
is recorded; otherwise returns false leaving the account untouched. -/
def SavingsAccount.withdraw_funds (acct : SavingsAccount) (amount : ℚ) : SavingsAccount × Bool :=
  if 0 < amount ∧ amount ≤ acct.balance then
    ({ acct with
       balance := acct.balance - amount
       transactions := acct.transactions ++
         [{ transaction_type := SavTxType.withdrawal
            amount := amount
            balance_before := acct.balance
            balance_after := acct.balance - amount
            reference_transaction_id := none }] }, true)
  else (acct, false)

/-- SavingsAccount.can_withdraw (savings/models.py lines 74-76). -/
def SavingsAccount.can_withdraw (acct : SavingsAccount) (amount : ℚ) : Bool :=
  decide (amount ≤ acct.balance)

/-- status choices of the SavingsGoal model (savings/models.py). -/
inductive GoalStatus
  | active
  | paused
  | completed
  | archived
deriving DecidableEq, Repr

/-- allocation type choices of the SavingsAllocation model
(savings/models.py). -/
inductive AllocType
  | deposit
  | withdrawal
  | auto_allocation
  | transfer
deriving DecidableEq, Repr

/-- a row of the SavingsAllocation model (savings/models.py lines 289-330).
The source column is a CharField and is embedded as a string, because
auto_allocate_to_goals passes the value auto_allocation which is not among
the declared source choices and Django stores it without validation. -/
structure SavingsAllocation where
  amount : ℚ
  allocation_type : AllocType
  source : String
  balance_before : ℚ
  balance_after : ℚ
deriving DecidableEq, Repr

/-- a row of the SavingsGoal model (savings/models.py lines 79-248), together
with its list of SavingsAllocation rows, oldest first.  The completed_at
timestamp is embedded as an optional integer.  Name, color, priority and
target_date are omitted. -/
structure SavingsGoal where
  target_amount : ℚ
  current_amount : ℚ
  status : GoalStatus
  completed_at : Option ℤ
  auto_allocate_enabled : Bool
  auto_allocate_percentage : ℚ
  allocations : List SavingsAllocation
deriving DecidableEq, Repr

/-- SavingsGoal.remaining_amount (savings/models.py lines 154-157). -/
def SavingsGoal.remaining_amount (g : SavingsGoal) : ℚ :=
  max 0 (g.target_amount - g.current_amount)

/-- SavingsGoal.is_completed (savings/models.py lines 166-169). -/
def SavingsGoal.is_completed (g : SavingsGoal) : Bool :=
  decide (g.target_amount ≤ g.current_amount)

/-- SavingsGoal.add_funds (savings/models.py lines 192-217): for a positive
amount the current amount grows by the amount with no clamping; the goal is
then marked completed with a completion timestamp when it has no completion
timestamp yet and the grown amount reaches the target; a deposit allocation
row is recorded and true is returned.  A non positive amount returns false
and changes nothing. -/
def SavingsGoal.add_funds (g : SavingsGoal) (amount : ℚ) (source : String) (now : ℤ) :
    SavingsGoal × Bool :=
  if 0 < amount then
    let g1 : SavingsGoal := { g with current_amount := g.current_amount + amount }
    let g2 : SavingsGoal :=
      if g1.completed_at = none ∧ g1.is_completed = true then
        { g1 with status := GoalStatus.completed, completed_at := some now }
      else g1
    ({ g2 with allocations := g2.allocations ++
        [{ amount := amount
           allocation_type := AllocType.deposit
           source := source
           balance_before := g.current_amount
           balance_after := g2.current_amount }] }, true)
  else (g, false)

/-- the queryset filter of auto_allocate_to_goals (savings/signals.py lines
258-263): active goals with auto allocation enabled and a positive
percentage. -/
def autoGoalMatch (g : SavingsGoal) : Bool :=
  decide (g.status = GoalStatus.active) && g.auto_allocate_enabled &&
    decide ((0 : ℚ) < g.auto_allocate_percentage)

/-- the allocation loop of auto_allocate_to_goals (savings/signals.py lines
274-300).  The goal list carries the goals of the user in queryset order;
goals outside the filtered queryset pass through unchanged.  The loop breaks
as soon as the remaining amount is spent; for each auto goal it allocates the
proportional share capped by the remaining amount of the goal and the
remaining amount of the loop, moving money from the account to the goal only
when the withdrawal from the account succeeds. -/
def allocLoop (tp amt : ℚ) (now : ℤ) :
    List SavingsGoal → SavingsAccount → ℚ → SavingsAccount × List SavingsGoal
  | [], acct, _ => (acct, [])
  | g :: gs, acct, rem =>
    if autoGoalMatch g = false then
      let out := allocLoop tp amt now gs acct rem
      (out.1, g :: out.2)
    else if rem ≤ 0 then (acct, g :: gs)
    else
      let allocation_amount := amt * (g.auto_allocate_percentage / tp)
      let max_allocation := min (min allocation_amount g.remaining_amount) rem
      if 0 < max_allocation then
        if (acct.withdraw_funds max_allocation).2 then
          let out := allocLoop tp amt now gs (acct.withdraw_funds max_allocation).1
            (rem - max_allocation)
          (out.1, (g.add_funds max_allocation "auto_allocation" now).1 :: out.2)
        else
          let out := allocLoop tp amt now gs acct rem
          (out.1, g :: out.2)
      else
        let out := allocLoop tp amt now gs acct rem
        (out.1, g :: out.2)

/-- auto_allocate_to_goals (savings/signals.py lines 252-308): nothing
happens when no goal matches the filter or when the total percentage is not
positive; otherwise the allocation loop distributes the amount. -/
def auto_allocate_to_goals (acct : SavingsAccount) (goals : List SavingsGoal) (amount : ℚ)
    (now : ℤ) : SavingsAccount × List SavingsGoal :=
  let auto_goals := goals.filter autoGoalMatch
  if auto_goals.isEmpty then (acct, goals)
  else
    let total_percentage := (auto_goals.map SavingsGoal.auto_allocate_percentage).sum
    if total_percentage ≤ 0 then (acct, goals)
    else allocLoop total_percentage amount now goals acct amount

/-- a row of the SavingsSettings model (savings/models.py lines 394-428),
restricted to the fields auto_save_on_income consults. -/
structure SavingsSettings where
  auto_save_enabled : Bool
  auto_save_percentage : ℚ
deriving DecidableEq, Repr

/-- the savings state of one user: the savings account, the optional
SavingsSettings row and the savings goals in queryset order. -/
structure SavingsState where
  account : SavingsAccount
  settingsOpt : Option SavingsSettings
  goals : List SavingsGoal
deriving DecidableEq, Repr

/-- the attribute read instance.transaction_type performed by
auto_save_on_income (savings/signals.py line 191): the Transaction model
(transactions/models.py) names this column type and defines no attribute
transaction_type, so the lookup finds nothing and Python raises an
AttributeError. -/
def Transaction.transaction_typeAttr (_ : Transaction) : Option TxType :=
  none

/-- the body of the auto_save_on_income receiver (savings/signals.py lines
185-249).  A save that is not a creation returns unchanged; a creation next
reads the transaction_type attribute, which does not exist on the Transaction
model, so the receiver raises before reaching its try block.  The remaining
branch embeds the code that would run for a model carrying that attribute:
settings fall back to the account fields, a disabled or non positive
percentage returns unchanged, and otherwise the percentage share of the
income is added to the balance, recorded as an auto_save row referencing the
income transaction, and passed to auto_allocate_to_goals. -/
def auto_save_on_income (st : SavingsState) (tx : Transaction) (created : Bool) (now : ℤ) :
    Except String SavingsState :=
  if created = false then Except.ok st
  else
    match tx.transaction_typeAttr with
    | none => Except.error "AttributeError: Transaction has no attribute transaction_type"
    | some ttype =>
      if ttype ≠ TxType.income then Except.ok st
      else
        let enabled := match st.settingsOpt with
          | some s => s.auto_save_enabled
          | none => st.account.is_auto_save_enabled
        let pct := match st.settingsOpt with
          | some s => s.auto_save_percentage
          | none => st.account.auto_save_percentage
        if enabled = false ∨ pct ≤ 0 then Except.ok st
        else
          let savings_amount := tx.amount * (pct / 100)
          let acct1 : SavingsAccount :=
            { st.account with
              balance := st.account.balance + savings_amount
              transactions := st.account.transactions ++
                [{ transaction_type := SavTxType.auto_save
                   amount := savings_amount
                   balance_before := st.account.balance
                   balance_after := st.account.balance + savings_amount
                   reference_transaction_id := some tx.pk }] }
          let out := auto_allocate_to_goals acct1 st.goals savings_amount now
          Except.ok { st with account := out.1, goals := out.2 }

/-- the app_label.ModelName reference of the Transaction model
(transactions/models.py inside the app project_apps.transactions, whose
Django app label is transactions). -/
def transactionModelLabel : String := "transactions.Transaction"

/-- the sender reference under which auto_save_on_income is registered
(savings/signals.py line 185). -/
def autoSaveSenderLabel : String := "finance.Transaction"

/-- the effect on the savings state of saving a Transaction row: Django
invokes a receiver of the post_save signal only when the sender reference it
was registered with resolves to the model being saved, so auto_save_on_income
runs only if its registered sender label names the Transaction model. -/
def transactionPostSaveSavingsEffect (st : SavingsState) (tx : Transaction) (created : Bool)
    (now : ℤ) : Except String SavingsState :=
  if autoSaveSenderLabel = transactionModelLabel then auto_save_on_income st tx created now
  else Except.ok st

/-- transaction table events: a row creation, an update of an existing row
identified by the stored old row and the new row sharing its primary key, and
a row deletion. -/
inductive TxEvent
  | create (t : Transaction)
  | update (told tnew : Transaction)
  | delete (t : Transaction)
deriving DecidableEq, Repr

/-- the effect of a transaction event on the transaction table: creation
appends the row, update replaces the row with the same primary key, deletion
removes the row with that primary key. -/
def applyEventToTxs (txs : List Transaction) : TxEvent → List Transaction
  | TxEvent.create t => txs ++ [t]
  | TxEvent.update _ tnew => txs.map fun x => if x.pk = tnew.pk then tnew else x
  | TxEvent.delete t => txs.filter fun x => decide (x.pk ≠ t.pk)

/-- the budget signal receivers run on a transaction event
(budgets/signals.py lines 44-72).  On creation the pre_save handler finds no
stored row and sets the old category to none, so the post_save handler
recalculates the none category, a no-op, and then the category of the row.
On update the post_save handler recalculates the stored old category when it
differs from the new one, and then the new category.  On deletion the
post_delete handler recalculates the category of the removed row.  The
receivers run after the table change. -/
def processTxEvent (db : DB) (e : TxEvent) : DB :=
  match e with
  | TxEvent.create t =>
    let db1 : DB := { db with transactions := applyEventToTxs db.transactions (TxEvent.create t) }
    let db2 : DB := if (none : Option Nat) ≠ t.category then recalc_budget db1 t.user none else db1
    recalc_budget db2 t.user t.category
  | TxEvent.update told tnew =>
    let db1 : DB :=
      { db with transactions := applyEventToTxs db.transactions (TxEvent.update told tnew) }
    let db2 : DB :=
      if told.category ≠ tnew.category then recalc_budget db1 tnew.user told.category else db1
    recalc_budget db2 tnew.user tnew.category
  | TxEvent.delete t =>
    let db1 : DB := { db with transactions := applyEventToTxs db.transactions (TxEvent.delete t) }
    recalc_budget db1 t.user t.category

/-- the user whose budgets a transaction event concerns. -/
def eventUser : TxEvent → Nat
  | TxEvent.create t => t.user
  | TxEvent.update _ tnew => tnew.user
  | TxEvent.delete t => t.user

/-- the categories a transaction event causes to be recalculated: the current
category of the row, plus the previous category on an update that changed
it. -/
def relevantCats : TxEvent → List (Option Nat)
  | TxEvent.create t => [t.category]
  | TxEvent.update told tnew =>
      if told.category ≠ tnew.category then [told.category, tnew.category] else [tnew.category]
  | TxEvent.delete t => [t.category]

/-- the per-goal relation established by the allocation loop between a goal
before and after auto allocation: a goal outside the filtered queryset is
untouched; a filtered goal receives a non negative amount bounded by its
proportional share and by its remaining amount, and is never pushed past its
target. -/
def allocRel (tp amt : ℚ) (g gout : SavingsGoal) : Prop :=
  if autoGoalMatch g then
    0 ≤ gout.current_amount - g.current_amount ∧
    gout.current_amount - g.current_amount ≤
      min (amt * (g.auto_allocate_percentage / tp)) g.remaining_amount ∧
    gout.current_amount ≤ max g.current_amount g.target_amount
  else gout = g

/-- total of the current amounts of a list of savings goals. -/
def sumCurrent (gs : List SavingsGoal) : ℚ :=
  (gs.map SavingsGoal.current_amount).sum

/-- the relation between a budget row before and after the receivers of a
transaction event ran: only the spent column may change, and it is recomputed
from the transaction table exactly for the active budget of the event user
whose category the event touches, all other rows keeping their spent
value. -/
def budgetRecalcRel (txsAfter : List Transaction) (u : Nat) (cats : List (Option Nat))
    (b bout : Budget ℤ) : Prop :=
  bout = { b with spent := bout.spent } ∧
  (if b.status = BudgetStatus.active ∧ b.user = u ∧ some b.category ∈ cats
   then bout.spent = expenseTotal txsAfter b.user b.category b.period_start b.period_end
   else bout.spent = b.spent)

/-- a sample savings account with balance ten and an empty history. -/
def acct0 : SavingsAccount :=
  { balance := 10, auto_save_percentage := 20, is_auto_save_enabled := true, transactions := [] }

/-- the deposit row produced by adding five to acct0. -/
def drow0 : SavingsTransaction :=
  { transaction_type := SavTxType.deposit, amount := 5, balance_before := 10,
    balance_after := 15, reference_transaction_id := none }

/-- a sample savings goal with target fifty and nothing saved yet. -/
def goal0 : SavingsGoal :=
  { target_amount := 50, current_amount := 0, status := GoalStatus.active, completed_at := none,
    auto_allocate_enabled := false, auto_allocate_percentage := 0, allocations := [] }

/-- a sample active budget of user one on category zero with stored spent
five. -/
def budgetA : Budget ℤ :=
  { id := 0, user := 1, category := 0, limit := 100, spent := 5, period := Period.monthly,
    alert_threshold := 80, status := BudgetStatus.active, period_start := 0, period_end := 100 }

/-- a sample active budget of user one on category one with stored spent
zero. -/
def budgetB : Budget ℤ :=
  { id := 1, user := 1, category := 1, limit := 100, spent := 0, period := Period.monthly,
    alert_threshold := 80, status := BudgetStatus.active, period_start := 0, period_end := 100 }

/-- a sample expense transaction of user one in category zero. -/
def t0 : Transaction :=
  { pk := 0, user := 1, category := some 0, type := TxType.expense, amount := 5, date := 10 }

/-- the transaction t0 moved to category one. -/
def t0moved : Transaction :=
  { t0 with category := some 1 }

/-- a sample database state where the spent totals of both budgets agree with
the transaction table. -/
def db0 : DB :=
  { transactions := [t0], budgets := [budgetA, budgetB] }

/-- the event that updates t0 into t0moved, changing only its category. -/
def ev0 : TxEvent :=
  TxEvent.update t0 t0moved

/-- a sample monthly budget carrying calendar period bounds. -/
def budget6 : Budget SimpleDateTime :=
  { id := 6, user := 1, category := 3, limit := 100, spent := 42, period := Period.monthly,
    alert_threshold := 80, status := BudgetStatus.active,
    period_start := ⟨2025, 1, 1, 0, 0, 0⟩, period_end := ⟨2025, 1, 31, 23, 59, 59⟩ }

/-- a sample current time inside February 2025. -/
def now6 : SimpleDateTime := ⟨2025, 2, 14, 9, 30, 0⟩

/-- a sample savings account with balance one hundred. -/
def acct10 : SavingsAccount :=
  { balance := 100, auto_save_percentage := 20, is_auto_save_enabled := true, transactions := [] }

/-- a sample auto-allocating goal taking half of every auto saving. -/
def goal10 : SavingsGoal :=
  { target_amount := 1000, current_amount := 0, status := GoalStatus.active, completed_at := none,
    auto_allocate_enabled := true, auto_allocate_percentage := 50, allocations := [] }

/-! Theorems.  Each claim of the specification review is settled by exactly
one theorem below; shared helper lemmas come first. -/

/-- C8: SavingsAccount.withdraw_funds returns true and debits the balance by
exactly the amount precisely when the amount is positive and covered by the
balance; in every other case it returns false and leaves the account,
including its transaction history, unchanged; and can_withdraw holds exactly
when the balance covers the amount. -/
theorem withdraw_funds_guard (acct : SavingsAccount) (amount : ℚ) :
    ((0 < amount ∧ amount ≤ acct.balance) →
      (acct.withdraw_funds amount).2 = true ∧
      (acct.withdraw_funds amount).1.balance = acct.balance - amount) ∧
    (¬(0 < amount ∧ amount ≤ acct.balance) →
      (acct.withdraw_funds amount).2 = false ∧ (acct.withdraw_funds amount).1 = acct) ∧
    ((acct.can_withdraw amount) = true ↔ amount ≤ acct.balance) := by
  unfold SavingsAccount.withdraw_funds SavingsAccount.can_withdraw
  refine ⟨fun h => ?_, fun h => ?_, by simp⟩
  · rw [if_pos h]
    exact ⟨rfl, rfl⟩
  · rw [if_neg h]
    exact ⟨rfl, rfl⟩

/-- witness for withdraw_funds_guard at a concrete account and amount. -/
theorem withdraw_funds_guard_witness :
    (acct0.withdraw_funds 4).2 = true ∧
    (acct0.withdraw_funds 4).1.balance = acct0.balance - 4 :=
  (withdraw_funds_guard acct0 4).1 (by decide)

/-- C9: every SavingsTransaction row appended by add_funds or withdraw_funds
satisfies the ledger equations, balance_after equal to balance_before plus
the amount for a deposit and minus the amount for a withdrawal, and its
balance_after equals the account balance right after the operation. -/
theorem savings_ledger_invariant (acct : SavingsAccount) (amount : ℚ) :
    (∀ r ∈ (acct.add_funds amount).transactions,
       r ∈ acct.transactions ∨
         (r.transaction_type = SavTxType.deposit ∧
          r.balance_after = r.balance_before + r.amount ∧
          r.balance_after = (acct.add_funds amount).balance)) ∧
    (∀ r ∈ (acct.withdraw_funds amount).1.transactions,
       r ∈ acct.transactions ∨
         (r.transaction_type = SavTxType.withdrawal ∧
          r.balance_after = r.balance_before - r.amount ∧
          r.balance_after = (acct.withdraw_funds amount).1.balance)) := by
  constructor
  · intro r hr
    unfold SavingsAccount.add_funds at hr ⊢
    by_cases h : 0 < amount
    · rw [if_pos h] at hr ⊢
      rcases List.mem_append.1 hr with h1 | h1
      · exact Or.inl h1
      · rw [List.mem_singleton] at h1
        subst h1
        exact Or.inr ⟨rfl, rfl, rfl⟩
    · rw [if_neg h] at hr
      exact Or.inl hr
  · intro r hr
    unfold SavingsAccount.withdraw_funds at hr ⊢
    by_cases h : 0 < amount ∧ amount ≤ acct.balance
    · rw [if_pos h] at hr ⊢
      rcases List.mem_append.1 hr with h1 | h1
      · exact Or.inl h1
      · rw [List.mem_singleton] at h1
        subst h1
        exact Or.inr ⟨rfl, rfl, rfl⟩
    · rw [if_neg h] at hr
      exact Or.inl hr

/-- witness for savings_ledger_invariant: the deposit row appended when five
is added to acct0 satisfies the ledger equations. -/
theorem savings_ledger_invariant_witness :
    drow0 ∈ acct0.transactions ∨
      (drow0.transaction_type = SavTxType.deposit ∧
       drow0.balance_after = drow0.balance_before + drow0.amount ∧
       drow0.balance_after = (acct0.add_funds 5).balance) :=
  (savings_ledger_invariant acct0 5).1 drow0 (by
    norm_num [acct0, drow0, SavingsAccount.add_funds])

/-- counterexample to C2 as stated: adding one hundred to a goal with target
fifty leaves the current amount at one hundred, strictly above the target, so
current_amount is not clamped to target_amount. -/
theorem savings_goal_add_funds_exceeds_target_cex :
    (goal0.add_funds 100 "manual" 7).1.current_amount = 100 ∧
    goal0.target_amount = 50 ∧
    ¬ (goal0.add_funds 100 "manual" 7).1.current_amount ≤ goal0.target_amount := by
  norm_num [goal0, SavingsGoal.add_funds, SavingsGoal.is_completed]

/-- C2 amended: adding a positive amount to a savings goal increases
current_amount by exactly that amount with no clamping, so it may exceed
target_amount; when the goal had no completion timestamp it is marked
completed, status completed with completed_at set to the current time,
exactly when the grown current_amount reaches target_amount; a goal that
already had a completion timestamp keeps its status and timestamp. -/
theorem savings_goal_add_funds_completion (g : SavingsGoal) (amount : ℚ) (source : String)
    (now : ℤ) (h : 0 < amount) :
    (g.add_funds amount source now).2 = true ∧
    (g.add_funds amount source now).1.current_amount = g.current_amount + amount ∧
    (g.completed_at = none →
      (((g.add_funds amount source now).1.status = GoalStatus.completed ∧
        (g.add_funds amount source now).1.completed_at = some now) ↔
       g.target_amount ≤ g.current_amount + amount)) ∧
    (g.completed_at ≠ none →
      (g.add_funds amount source now).1.status = g.status ∧
      (g.add_funds amount source now).1.completed_at = g.completed_at) := by
  unfold SavingsGoal.add_funds
  rw [if_pos h]
  simp only [SavingsGoal.is_completed]
  by_cases hc : g.completed_at = none
  · by_cases ht : g.target_amount ≤ g.current_amount + amount
    · simp [hc, ht]
    · simp [hc, ht]
  · simp [hc]

/-- witness for savings_goal_add_funds_completion: adding sixty to goal0
crosses its target of fifty, so the goal is marked completed. -/
theorem savings_goal_add_funds_completion_witness :
    (goal0.add_funds 60 "manual" 7).2 = true ∧
    (goal0.add_funds 60 "manual" 7).1.current_amount = goal0.current_amount + 60 ∧
    (goal0.completed_at = none →
      (((goal0.add_funds 60 "manual" 7).1.status = GoalStatus.completed ∧
        (goal0.add_funds 60 "manual" 7).1.completed_at = some 7) ↔
       goal0.target_amount ≤ goal0.current_amount + 60)) ∧
    (goal0.completed_at ≠ none →
      (goal0.add_funds 60 "manual" 7).1.status = goal0.status ∧
      (goal0.add_funds 60 "manual" 7).1.completed_at = goal0.completed_at) :=
  savings_goal_add_funds_completion goal0 60 "manual" 7 (by norm_num)

/-- C5: writing any spent value to a budget is a total operation with no
validation, its only observable consequence besides the stored value being
the is_over_budget flag, which holds exactly when spent exceeds the limit. -/
theorem budget_spent_over_limit_only_flag (b : Budget ℤ) (v : ℚ) :
    (b.updateSpent v).spent = v ∧
    ({ b.updateSpent v with spent := b.spent } = b) ∧
    ((b.updateSpent v).is_over_budget = true ↔ b.limit < v) := by
  refine ⟨rfl, rfl, ?_⟩
  simp [Budget.updateSpent, Budget.is_over_budget]

/-- helper: appending one element never returns the same list. -/
theorem append_singleton_ne {α : Type} (l : List α) (x : α) : l ++ [x] ≠ l := by
  intro h
  have := congrArg List.length h
  simp at this

/-- helper: closed form of the alert pipeline run after a recalculation. -/
theorem budgetAlertAfterRecalc_eq {T : Type} (b : Budget T) (alerts : List BudgetAlert)
    (now : ℤ) :
    budgetAlertAfterRecalc b alerts now =
      (if (b.alert_threshold ≤ b.percentage_used ∨ b.limit < b.spent) ∧
          recentAlertOfType alerts b.id
            (if b.limit < b.spent then AlertType.exceeded else AlertType.threshold) now = false
       then alerts ++
         [{ budget := b.id
            alert_type := if b.limit < b.spent then AlertType.exceeded else AlertType.threshold
            created_at := now }]
       else alerts) := by
  unfold budgetAlertAfterRecalc create_budget_alert Budget.is_over_budget
    Budget.is_alert_threshold_reached
  by_cases hover : b.limit < b.spent
  · by_cases hrec : recentAlertOfType alerts b.id AlertType.exceeded now = true
    · simp [hover, hrec]
    · simp [hover, hrec, Bool.not_eq_true _ ▸ hrec]
  · by_cases hthr : b.alert_threshold ≤ b.percentage_used
    · by_cases hrec : recentAlertOfType alerts b.id AlertType.threshold now = true
      · simp [hover, hthr, hrec]
      · simp [hover, hthr, Bool.not_eq_true _ ▸ hrec]
    · simp [hover, hthr]

/-- C4: after a recalculation, a budget alert row is created if and only if
the budget is at or past its alert threshold or over its limit and no alert
of the same type exists within the six hour deduplication window; the
created alert is of type exceeded when spent exceeds the limit and of type
threshold otherwise. -/
theorem budget_alert_raised_iff {T : Type} (b : Budget T) (alerts : List BudgetAlert)
    (now : ℤ) :
    budgetAlertAfterRecalc b alerts now =
      (if (b.alert_threshold ≤ b.percentage_used ∨ b.limit < b.spent) ∧
          recentAlertOfType alerts b.id
            (if b.limit < b.spent then AlertType.exceeded else AlertType.threshold) now = false
       then alerts ++
         [{ budget := b.id
            alert_type := if b.limit < b.spent then AlertType.exceeded else AlertType.threshold
            created_at := now }]
       else alerts) ∧
    (budgetAlertAfterRecalc b alerts now ≠ alerts ↔
      ((b.alert_threshold ≤ b.percentage_used ∨ b.limit < b.spent) ∧
        recentAlertOfType alerts b.id
          (if b.limit < b.spent then AlertType.exceeded else AlertType.threshold) now = false)) := by
  refine ⟨budgetAlertAfterRecalc_eq b alerts now, ?_⟩
  rw [budgetAlertAfterRecalc_eq b alerts now]
  split
  · next hcond => simp [append_singleton_ne, hcond]
  · next hcond => simp [hcond]

/-- C3: the auto_save_on_income receiver is registered for the sender
reference finance.Transaction, which does not name the Transaction model of
the transactions app, so saving a transaction never triggers any auto-save:
the savings state is returned unchanged for every save, creations of income
transactions included. -/
theorem auto_save_receiver_never_fires (st : SavingsState) (tx : Transaction) (created : Bool)
    (now : ℤ) :
    transactionPostSaveSavingsEffect st tx created now = Except.ok st := by
  unfold transactionPostSaveSavingsEffect
  rw [if_neg (by decide : ¬ (autoSaveSenderLabel = transactionModelLabel))]

/-- helper: one second after the last second of the month preceding a
first-of-month midnight is that midnight, for any month number between one
and twelve. -/
theorem succSecond_minusOneSecondOfFirst (y : ℤ) (m : Nat) (hm1 : 1 ≤ m) (hm2 : m ≤ 12) :
    succSecond (minusOneSecondOfFirst ⟨y, m, 1, 0, 0, 0⟩) = ⟨y, m, 1, 0, 0, 0⟩ := by
  unfold minusOneSecondOfFirst succSecond
  by_cases h1 : m = 1
  · subst h1
    simp [SimpleDateTime.mk.injEq]
    try omega
  · have h2 : m - 1 < 12 := by omega
    simp [h1, h2, SimpleDateTime.mk.injEq]
    try omega

/-- C6: advance_period resets spent to exactly zero, leaves every other
budget column unchanged, and installs the period window of the current time:
the window starts at the first instant of the current calendar month, quarter
or year according to the period choice, and the window end is exactly one
second before the start of the following window, namely the window start
plus one, three or twelve months. -/
theorem advance_period_resets_window (b : Budget SimpleDateTime) (now : SimpleDateTime)
    (hm1 : 1 ≤ now.month) (hm2 : now.month ≤ 12) :
    (b.advance_period now).spent = 0 ∧
    ({ b.advance_period now with
        spent := b.spent, period_start := b.period_start, period_end := b.period_end } = b) ∧
    succSecond (b.advance_period now).period_end =
      addMonthsFirstDay (b.advance_period now).period_start b.period.numMonths ∧
    (b.period = Period.monthly →
      (b.advance_period now).period_start = ⟨now.year, now.month, 1, 0, 0, 0⟩) ∧
    (b.period = Period.quarterly →
      (b.advance_period now).period_start =
        ⟨now.year, 3 * ((now.month - 1) / 3) + 1, 1, 0, 0, 0⟩ ∧
      (b.advance_period now).period_start.month ≤ now.month ∧
      now.month < (b.advance_period now).period_start.month + 3 ∧
      (b.advance_period now).period_start.month % 3 = 1) ∧
    (b.period = Period.yearly →
      (b.advance_period now).period_start = ⟨now.year, 1, 1, 0, 0, 0⟩) := by
  refine ⟨rfl, rfl, ?_, ?_, ?_, ?_⟩
  · rcases hpd : b.period with _ | _ | _ <;>
      simp only [Budget.advance_period, set_period_dates, Period.numMonths, hpd] <;>
        exact succSecond_minusOneSecondOfFirst _ _ (by omega) (by omega)
  · intro hpd
    simp only [Budget.advance_period, set_period_dates, hpd]
  · intro hpd
    simp only [Budget.advance_period, set_period_dates, hpd]
    refine ⟨?_, by omega, by omega, by omega⟩
    simp [SimpleDateTime.mk.injEq]
    omega
  · intro hpd
    simp only [Budget.advance_period, set_period_dates, hpd]

/-- witness for advance_period_resets_window: advancing a monthly budget in
mid February 2025 resets spent to zero and produces a window whose end is one
second before the start of the next month. -/
theorem advance_period_resets_window_witness :
    (budget6.advance_period now6).spent = 0 ∧
    succSecond (budget6.advance_period now6).period_end =
      addMonthsFirstDay (budget6.advance_period now6).period_start budget6.period.numMonths := by
  have h := advance_period_resets_window budget6 now6 (by decide) (by decide)
  exact ⟨h.1, h.2.2.1⟩

/-- helper: a pointwise relation between a list and itself. -/
theorem forall₂_self {α : Type} {R : α → α → Prop} :
    ∀ l : List α, (∀ a ∈ l, R a a) → List.Forall₂ R l l
  | [], _ => List.Forall₂.nil
  | a :: l, h =>
      List.Forall₂.cons (h a (List.mem_cons_self a l))
        (forall₂_self l fun x hx => h x (List.mem_cons_of_mem a hx))

/-- helper: a pointwise relation between a list and its image under a map. -/
theorem forall₂_map_self {α : Type} {R : α → α → Prop} (f : α → α) :
    ∀ l : List α, (∀ a ∈ l, R a (f a)) → List.Forall₂ R l (l.map f)
  | [], _ => List.Forall₂.nil
  | a :: l, h =>
      List.Forall₂.cons (h a (List.mem_cons_self a l))
        (forall₂_map_self f l fun x hx => h x (List.mem_cons_of_mem a hx))

/-- helper: the recalculation relation holds reflexively for a budget outside
the touched categories. -/
theorem budgetRecalcRel_refl (txs : List Transaction) (u : Nat) (cats : List (Option Nat))
    (b : Budget ℤ)
    (hb : ¬(b.status = BudgetStatus.active ∧ b.user = u ∧ some b.category ∈ cats)) :
    budgetRecalcRel txs u cats b b := by
  unfold budgetRecalcRel
  rw [if_neg hb]
  exact ⟨rfl, rfl⟩

/-- helper: one recalculation pass establishes the relation whenever
membership in the touched categories coincides with equality with the
recalculated category. -/
theorem budgetRecalcRel_recalcOne (txs : List Transaction) (u c : Nat)
    (cats : List (Option Nat)) (hmem : ∀ x : Nat, some x ∈ cats ↔ x = c) (b : Budget ℤ) :
    budgetRecalcRel txs u cats b (recalcOne txs u c b) := by
  unfold budgetRecalcRel recalcOne
  by_cases ht : recalcTarget u c b
  · obtain ⟨hu, hc, hs⟩ := ht
    rw [if_pos ⟨hu, hc, hs⟩, if_pos ⟨hs, hu, (hmem b.category).2 hc⟩]
    refine ⟨rfl, ?_⟩
    simp [Budget.updateSpent, hu, hc]
  · rw [if_neg ht, if_neg ?hneg]
    · exact ⟨rfl, rfl⟩
    case hneg =>
      rintro ⟨hs, hu, hm⟩
      exact ht ⟨hu, (hmem b.category).1 hm, hs⟩

/-- helper: two recalculation passes on distinct categories establish the
relation for the pair of touched categories. -/
theorem budgetRecalcRel_recalcOne_two (txs : List Transaction) (u a c : Nat) (hac : a ≠ c)
    (cats : List (Option Nat)) (hmem : ∀ x : Nat, some x ∈ cats ↔ (x = a ∨ x = c))
    (b : Budget ℤ) :
    budgetRecalcRel txs u cats b (recalcOne txs u c (recalcOne txs u a b)) := by
  by_cases hta : recalcTarget u a b
  · obtain ⟨hu, hca, hs⟩ := hta
    have hin : recalcOne txs u a b =
        b.updateSpent (expenseTotal txs u a b.period_start b.period_end) := by
      unfold recalcOne
      rw [if_pos ⟨hu, hca, hs⟩]
    have htc : ¬ recalcTarget u c
        (b.updateSpent (expenseTotal txs u a b.period_start b.period_end)) := by
      rintro ⟨_, hcc, _⟩
      have hacc : a = c := by rw [← hca]; exact hcc
      exact hac hacc
    have hout : recalcOne txs u c (recalcOne txs u a b) =
        b.updateSpent (expenseTotal txs u a b.period_start b.period_end) := by
      rw [hin]
      unfold recalcOne
      rw [if_neg htc]
    rw [hout]
    unfold budgetRecalcRel
    rw [if_pos ⟨hs, hu, (hmem b.category).2 (Or.inl hca)⟩]
    refine ⟨rfl, ?_⟩
    simp [Budget.updateSpent, hu, hca]
  · have hin : recalcOne txs u a b = b := by
      unfold recalcOne
      rw [if_neg hta]
    rw [hin]
    by_cases htc : recalcTarget u c b
    · obtain ⟨hu, hcc, hs⟩ := htc
      have hout : recalcOne txs u c b =
          b.updateSpent (expenseTotal txs u c b.period_start b.period_end) := by
        unfold recalcOne
        rw [if_pos ⟨hu, hcc, hs⟩]
      rw [hout]
      unfold budgetRecalcRel
      rw [if_pos ⟨hs, hu, (hmem b.category).2 (Or.inr hcc)⟩]
      refine ⟨rfl, ?_⟩
      simp [Budget.updateSpent, hu, hcc]
    · have hout : recalcOne txs u c b = b := by
        unfold recalcOne
        rw [if_neg htc]
      rw [hout]
      refine budgetRecalcRel_refl _ _ _ _ ?_
      rintro ⟨hs, hu, hm⟩
      rcases (hmem b.category).1 hm with h | h
      · exact hta ⟨hu, h, hs⟩
      · exact htc ⟨hu, h, hs⟩

/-- helper: recalc_budget leaves the transaction table unchanged. -/
theorem recalc_budget_transactions (db : DB) (u : Nat) (cat : Option Nat) :
    (recalc_budget db u cat).transactions = db.transactions := by
  cases cat <;> rfl

/-- helper: full description of the budget table after the receivers of a
transaction event ran. -/
theorem processTxEvent_spec (db : DB) (e : TxEvent) :
    (processTxEvent db e).transactions = applyEventToTxs db.transactions e ∧
    List.Forall₂
      (budgetRecalcRel (applyEventToTxs db.transactions e) (eventUser e) (relevantCats e))
      db.budgets (processTxEvent db e).budgets := by
  cases e with
  | create t =>
    cases hc : t.category with
    | none =>
      refine ⟨by simp [processTxEvent, recalc_budget, hc], ?_⟩
      have hres : (processTxEvent db (TxEvent.create t)).budgets = db.budgets := by
        simp [processTxEvent, recalc_budget, hc]
      rw [hres]
      refine forall₂_self _ fun b _ => budgetRecalcRel_refl _ _ _ _ ?_
      rintro ⟨_, _, hm⟩
      simp [relevantCats, hc] at hm
    | some c =>
      refine ⟨by simp [processTxEvent, recalc_budget, hc], ?_⟩
      have hres : (processTxEvent db (TxEvent.create t)).budgets =
          db.budgets.map
            (recalcOne (applyEventToTxs db.transactions (TxEvent.create t)) t.user c) := by
        simp [processTxEvent, recalc_budget, hc, applyEventToTxs]
      rw [hres]
      refine forall₂_map_self _ _ fun b _ => ?_
      refine budgetRecalcRel_recalcOne _ _ _ _ ?_ b
      intro x
      simp [relevantCats, hc]
  | delete t =>
    cases hc : t.category with
    | none =>
      refine ⟨by simp [processTxEvent, recalc_budget, hc], ?_⟩
      have hres : (processTxEvent db (TxEvent.delete t)).budgets = db.budgets := by
        simp [processTxEvent, recalc_budget, hc]
      rw [hres]
      refine forall₂_self _ fun b _ => budgetRecalcRel_refl _ _ _ _ ?_
      rintro ⟨_, _, hm⟩
      simp [relevantCats, hc] at hm
    | some c =>
      refine ⟨by simp [processTxEvent, recalc_budget, hc], ?_⟩
      have hres : (processTxEvent db (TxEvent.delete t)).budgets =
          db.budgets.map
            (recalcOne (applyEventToTxs db.transactions (TxEvent.delete t)) t.user c) := by
        simp [processTxEvent, recalc_budget, hc, applyEventToTxs]
      rw [hres]
      refine forall₂_map_self _ _ fun b _ => ?_
      refine budgetRecalcRel_recalcOne _ _ _ _ ?_ b
      intro x
      simp [relevantCats, hc]
  | update told tnew =>
    by_cases heq : told.category = tnew.category
    · cases hc : tnew.category with
      | none =>
        refine ⟨by simp [processTxEvent, recalc_budget, heq, hc], ?_⟩
        have hres : (processTxEvent db (TxEvent.update told tnew)).budgets = db.budgets := by
          simp [processTxEvent, recalc_budget, heq, hc]
        rw [hres]
        refine forall₂_self _ fun b _ => budgetRecalcRel_refl _ _ _ _ ?_
        rintro ⟨_, _, hm⟩
        simp [relevantCats, heq, hc] at hm
      | some c =>
        refine ⟨by simp [processTxEvent, recalc_budget, heq, hc], ?_⟩
        have hres : (processTxEvent db (TxEvent.update told tnew)).budgets =
            db.budgets.map
              (recalcOne (applyEventToTxs db.transactions (TxEvent.update told tnew))
                tnew.user c) := by
          simp [processTxEvent, recalc_budget, heq, hc, applyEventToTxs]
        rw [hres]
        refine forall₂_map_self _ _ fun b _ => ?_
        refine budgetRecalcRel_recalcOne _ _ _ _ ?_ b
        intro x
        simp [relevantCats, heq, hc]
    · cases ho : told.category with
      | none =>
        cases hc : tnew.category with
        | none => exact absurd (ho.trans hc.symm) heq
        | some c =>
          refine ⟨by simp [processTxEvent, recalc_budget, heq, ho, hc], ?_⟩
          have hres : (processTxEvent db (TxEvent.update told tnew)).budgets =
              db.budgets.map
                (recalcOne (applyEventToTxs db.transactions (TxEvent.update told tnew))
                  tnew.user c) := by
            simp [processTxEvent, recalc_budget, heq, ho, hc, applyEventToTxs]
          rw [hres]
          refine forall₂_map_self _ _ fun b _ => ?_
          refine budgetRecalcRel_recalcOne _ _ _ _ ?_ b
          intro x
          simp [relevantCats, heq, ho, hc]
      | some a =>
        cases hc : tnew.category with
        | none =>
          refine ⟨by simp [processTxEvent, recalc_budget, heq, ho, hc], ?_⟩
          have hres : (processTxEvent db (TxEvent.update told tnew)).budgets =
              db.budgets.map
                (recalcOne (applyEventToTxs db.transactions (TxEvent.update told tnew))
                  tnew.user a) := by
            simp [processTxEvent, recalc_budget, heq, ho, hc, applyEventToTxs]
          rw [hres]
          refine forall₂_map_self _ _ fun b _ => ?_
          refine budgetRecalcRel_recalcOne _ _ _ _ ?_ b
          intro x
          simp [relevantCats, heq, ho, hc]
        | some c =>
          have hac : a ≠ c := by
            intro h
            exact heq (by rw [ho, hc, h])
          refine ⟨by simp [processTxEvent, recalc_budget, heq, ho, hc, hac], ?_⟩
          have hres : (processTxEvent db (TxEvent.update told tnew)).budgets =
              (db.budgets.map
                (recalcOne (applyEventToTxs db.transactions (TxEvent.update told tnew))
                  tnew.user a)).map
                (recalcOne (applyEventToTxs db.transactions (TxEvent.update told tnew))
                  tnew.user c) := by
            simp [processTxEvent, recalc_budget, heq, ho, hc, hac, applyEventToTxs]
          rw [hres, List.map_map]
          refine forall₂_map_self _ _ fun b _ => ?_
          refine budgetRecalcRel_recalcOne_two _ _ _ _ hac _ ?_ b
          intro x
          simp [relevantCats, heq, ho, hc, hac]

/-- C1 amended: on every transaction create, update or delete the receivers
recompute the spent column of exactly the active budgets of the event user
whose category the event touches, namely the current category of the row
plus, on an update that changed the category, the previous category; the
recomputed value is the expense total of the updated transaction table over
the period window of the budget, which is zero when no transaction matches;
every other budget row, in particular every budget of another user or of an
untouched category, keeps its spent value, and no budget column other than
spent changes anywhere. -/
theorem budget_recalc_on_transaction_events (db : DB) (e : TxEvent) :
    (processTxEvent db e).transactions = applyEventToTxs db.transactions e ∧
    List.Forall₂
      (budgetRecalcRel (applyEventToTxs db.transactions e) (eventUser e) (relevantCats e))
      db.budgets (processTxEvent db e).budgets :=
  processTxEvent_spec db e

/-- counterexample to the frame clause of C1 as stated: moving the only
expense of user one from category zero to category one also recalculates the
category zero budget, a budget of a category other than the one the updated
transaction now has, changing its stored spent from five to zero. -/
theorem old_category_budget_recalculated_cex :
    db0.budgets.map (fun b => b.spent) = [5, 0] ∧
    (processTxEvent db0 ev0).budgets.map (fun b => b.spent) = [0, 5] ∧
    t0moved.category = some 1 ∧ budgetA.category = 0 := by
  refine ⟨rfl, ?_, rfl, rfl⟩
  simp +decide [db0, ev0, t0, t0moved, budgetA, budgetB, processTxEvent, recalc_budget,
    recalcOne, recalcTarget, expenseTotal, matchesBudgetExpense, applyEventToTxs,
    Budget.updateSpent]

/-- C7: when an update changes the category of a transaction, the budgets of
both the old and the new category of the user are recalculated against the
updated transaction table, and the moved transaction no longer matches the
expense filter of the old category budget, so its amount is no longer counted
there. -/
theorem category_change_recalcs_both_budgets (db : DB) (told tnew : Transaction)
    (hcat : told.category ≠ tnew.category) :
    List.Forall₂ (fun b bout =>
        b.status = BudgetStatus.active → b.user = tnew.user →
        (some b.category = told.category ∨ some b.category = tnew.category) →
        bout.spent = expenseTotal (applyEventToTxs db.transactions (TxEvent.update told tnew))
            b.user b.category b.period_start b.period_end ∧
        (some b.category = told.category →
          tnew ∉ (applyEventToTxs db.transactions (TxEvent.update told tnew)).filter
            (fun t => decide (matchesBudgetExpense b.user b.category b.period_start
              b.period_end t))))
      db.budgets (processTxEvent db (TxEvent.update told tnew)).budgets := by
  have h := (processTxEvent_spec db (TxEvent.update told tnew)).2
  refine h.imp ?_
  intro b bout hrel hs hu hmem
  obtain ⟨hframe, hspent⟩ := hrel
  have hcond : b.status = BudgetStatus.active ∧
      b.user = eventUser (TxEvent.update told tnew) ∧
      some b.category ∈ relevantCats (TxEvent.update told tnew) := by
    refine ⟨hs, hu, ?_⟩
    simp only [relevantCats, if_pos hcat]
    rcases hmem with h1 | h1
    · simp [h1]
    · simp [h1]
  rw [if_pos hcond] at hspent
  refine ⟨hspent, ?_⟩
  intro hold hmemf
  have hmatch := (List.mem_filter.1 hmemf).2
  rw [decide_eq_true_iff] at hmatch
  obtain ⟨_, hc2, _⟩ := hmatch
  exact hcat (by rw [← hold, ← hc2])

/-- witness for category_change_recalcs_both_budgets at the concrete state
db0 and the category changing update from t0 to t0moved. -/
theorem category_change_recalcs_both_budgets_witness :
    List.Forall₂ (fun b bout =>
        b.status = BudgetStatus.active → b.user = t0moved.user →
        (some b.category = t0.category ∨ some b.category = t0moved.category) →
        bout.spent = expenseTotal (applyEventToTxs db0.transactions (TxEvent.update t0 t0moved))
            b.user b.category b.period_start b.period_end ∧
        (some b.category = t0.category →
          t0moved ∉ (applyEventToTxs db0.transactions (TxEvent.update t0 t0moved)).filter
            (fun t => decide (matchesBudgetExpense b.user b.category b.period_start
              b.period_end t))))
      db0.budgets (processTxEvent db0 (TxEvent.update t0 t0moved)).budgets :=
  category_change_recalcs_both_budgets db0 t0 t0moved (by decide)

/-- helper: a successful withdrawal debits the balance by exactly the
amount. -/
theorem withdraw_funds_balance_of_success (acct : SavingsAccount) (amount : ℚ)
    (h : (acct.withdraw_funds amount).2 = true) :
    (acct.withdraw_funds amount).1.balance = acct.balance - amount := by
  unfold SavingsAccount.withdraw_funds at h ⊢
  by_cases hc : 0 < amount ∧ amount ≤ acct.balance
  · rw [if_pos hc]
  · rw [if_neg hc] at h
    cases h

/-- helper: adding a positive amount to a goal grows its current amount by
exactly the amount. -/
theorem goal_add_funds_current (g : SavingsGoal) (amount : ℚ) (source : String) (now : ℤ)
    (h : 0 < amount) :
    (g.add_funds amount source now).1.current_amount = g.current_amount + amount := by
  unfold SavingsGoal.add_funds
  rw [if_pos h]
  dsimp only
  split <;> rfl

/-- helper: adding funds never changes the target of a goal. -/
theorem goal_add_funds_target (g : SavingsGoal) (amount : ℚ) (source : String) (now : ℤ) :
    (g.add_funds amount source now).1.target_amount = g.target_amount := by
  unfold SavingsGoal.add_funds
  dsimp only
  split
  · split <;> rfl
  · rfl

/-- helper: the per goal allocation relation holds reflexively. -/
theorem allocRel_refl (tp amt : ℚ) (htp : 0 < tp) (hamt : 0 ≤ amt) (g : SavingsGoal) :
    allocRel tp amt g g := by
  unfold allocRel
  by_cases hm : autoGoalMatch g = true
  · rw [if_pos hm]
    have hpct : 0 < g.auto_allocate_percentage := by
      unfold autoGoalMatch at hm
      simp at hm
      exact hm.2
    have h1 : 0 ≤ amt * (g.auto_allocate_percentage / tp) :=
      mul_nonneg hamt (le_of_lt (div_pos hpct htp))
    have h2 : (0 : ℚ) ≤ g.remaining_amount := le_max_left 0 _
    refine ⟨by simp, ?_, le_max_left _ _⟩
    simpa using le_min h1 h2
  · rw [if_neg hm]

/-- helper: the current amount plus the remaining amount of a goal is the
larger of its current and target amounts. -/
theorem current_add_remaining (g : SavingsGoal) :
    g.current_amount + g.remaining_amount = max g.current_amount g.target_amount := by
  unfold SavingsGoal.remaining_amount
  rcases le_total g.current_amount g.target_amount with h | h
  · rw [max_eq_right (sub_nonneg.2 h), max_eq_right h]
    ring
  · rw [max_eq_left (sub_nonpos.2 h), max_eq_left h]
    ring

/-- helper: the sum of current amounts over a cons. -/
theorem sumCurrent_cons (g : SavingsGoal) (gs : List SavingsGoal) :
    sumCurrent (g :: gs) = g.current_amount + sumCurrent gs := by
  simp [sumCurrent]

/-- helper: invariants of the allocation loop: the total added to the goals
is at most the positive part of the remaining amount, the account pays for
exactly the total added to the goals, and every goal satisfies the per goal
allocation relation. -/
theorem allocLoop_spec (tp amt : ℚ) (now : ℤ) (htp : 0 < tp) (hamt : 0 ≤ amt)
    (gs : List SavingsGoal) :
    ∀ (acct : SavingsAccount) (rem : ℚ),
      sumCurrent (allocLoop tp amt now gs acct rem).2 - sumCurrent gs ≤ max rem 0 ∧
      (allocLoop tp amt now gs acct rem).1.balance =
        acct.balance - (sumCurrent (allocLoop tp amt now gs acct rem).2 - sumCurrent gs) ∧
      List.Forall₂ (allocRel tp amt) gs (allocLoop tp amt now gs acct rem).2 := by
  induction gs with
  | nil =>
    intro acct rem
    refine ⟨?_, ?_, by simp [allocLoop]⟩
    · simp [allocLoop, sumCurrent, le_max_iff]
    · simp [allocLoop, sumCurrent]
  | cons g gs ih =>
    intro acct rem
    have skipcase :
        sumCurrent (g :: (allocLoop tp amt now gs acct rem).2) - sumCurrent (g :: gs) ≤
          max rem 0 ∧
        (allocLoop tp amt now gs acct rem).1.balance =
          acct.balance -
            (sumCurrent (g :: (allocLoop tp amt now gs acct rem).2) - sumCurrent (g :: gs)) ∧
        List.Forall₂ (allocRel tp amt) (g :: gs)
          (g :: (allocLoop tp amt now gs acct rem).2) := by
      obtain ⟨ih1, ih2, ih3⟩ := ih acct rem
      refine ⟨?_, ?_, List.Forall₂.cons (allocRel_refl tp amt htp hamt g) ih3⟩
      · rw [sumCurrent_cons, sumCurrent_cons]
        linarith
      · rw [sumCurrent_cons, sumCurrent_cons, ih2]
        ring
    by_cases h1 : autoGoalMatch g = false
    · simp only [allocLoop]
      rw [if_pos h1]
      exact skipcase
    · have hmatch : autoGoalMatch g = true := by
        simp at h1
        exact h1
      simp only [allocLoop]
      rw [if_neg h1]
      by_cases h2 : rem ≤ 0
      · rw [if_pos h2]
        refine ⟨by simp [le_max_iff], by simp, ?_⟩
        exact forall₂_self _ fun x _ => allocRel_refl tp amt htp hamt x
      · rw [if_neg h2]
        set m := min (min (amt * (g.auto_allocate_percentage / tp)) g.remaining_amount) rem
          with hmdef
        by_cases h3 : 0 < m
        · rw [if_pos h3]
          by_cases h4 : (acct.withdraw_funds m).2 = true
          · rw [if_pos h4]
            obtain ⟨ih1, ih2, ih3⟩ := ih (acct.withdraw_funds m).1 (rem - m)
            have hmrem : m ≤ rem := min_le_right _ _
            have hma : m ≤ min (amt * (g.auto_allocate_percentage / tp)) g.remaining_amount :=
              min_le_left _ _
            have hmr : m ≤ g.remaining_amount := le_trans hma (min_le_right _ _)
            have hbal := withdraw_funds_balance_of_success acct m h4
            have hcur := goal_add_funds_current g m "auto_allocation" now h3
            have hmax : max (rem - m) 0 = rem - m := max_eq_left (by linarith)
            rw [hmax] at ih1
            have hrmax : rem ≤ max rem 0 := le_max_left rem 0
            refine ⟨?_, ?_, List.Forall₂.cons ?_ ih3⟩
            · simp only [sumCurrent_cons, hcur]
              linarith
            · simp only [sumCurrent_cons, hcur]
              rw [ih2, hbal]
              ring
            · unfold allocRel
              rw [if_pos hmatch]
              refine ⟨by rw [hcur]; linarith, ?_, ?_⟩
              · rw [hcur]
                simpa using hma
              · rw [hcur]
                have hrm := current_add_remaining g
                linarith
          · rw [if_neg h4]
            exact skipcase
        · rw [if_neg h3]
          exact skipcase

/-- helper: the total auto allocation percentage of a non empty filtered goal
list is positive, every filtered goal having a positive percentage. -/
theorem total_percentage_pos (goals : List SavingsGoal)
    (hne : ¬ (goals.filter autoGoalMatch).isEmpty = true) :
    0 < ((goals.filter autoGoalMatch).map SavingsGoal.auto_allocate_percentage).sum := by
  refine List.sum_pos _ ?_ ?_
  · intro x hx
    obtain ⟨gg, hgg, hxeq⟩ := List.mem_map.1 hx
    have hmatch := (List.mem_filter.1 hgg).2
    unfold autoGoalMatch at hmatch
    simp at hmatch
    rw [← hxeq]
    exact hmatch.2
  · intro hnil
    apply hne
    rw [List.map_eq_nil_iff] at hnil
    simp [hnil]

/-- C10: auto_allocate_to_goals conserves money: the total amount added over
all goals never exceeds the allocated amount, the account balance drops by
exactly the total added to the goals, so nothing reaches a goal without being
withdrawn from the account first, and each goal receives a non negative
amount of at most the minimum of its proportional share and its remaining
amount, never being pushed past its target, while goals outside the auto
allocation queryset are untouched. -/
theorem auto_allocate_conserves_money (acct : SavingsAccount) (goals : List SavingsGoal)
    (amount : ℚ) (now : ℤ) (hamt : 0 ≤ amount) :
    sumCurrent (auto_allocate_to_goals acct goals amount now).2 - sumCurrent goals ≤ amount ∧
    (auto_allocate_to_goals acct goals amount now).1.balance =
      acct.balance -
        (sumCurrent (auto_allocate_to_goals acct goals amount now).2 - sumCurrent goals) ∧
    List.Forall₂
      (allocRel ((goals.filter autoGoalMatch).map SavingsGoal.auto_allocate_percentage).sum
        amount)
      goals (auto_allocate_to_goals acct goals amount now).2 := by
  simp only [auto_allocate_to_goals]
  by_cases hemp : (goals.filter autoGoalMatch).isEmpty = true
  · rw [if_pos hemp]
    have hnil : goals.filter autoGoalMatch = [] := by
      rwa [List.isEmpty_iff] at hemp
    have hfalse : ∀ x ∈ goals, ¬ autoGoalMatch x = true := by
      intro x hx hmx
      have hmem : x ∈ goals.filter autoGoalMatch := List.mem_filter.2 ⟨hx, hmx⟩
      rw [hnil] at hmem
      simp at hmem
    refine ⟨by simpa using hamt, by simp, ?_⟩
    refine forall₂_self _ fun x hx => ?_
    unfold allocRel
    rw [if_neg (hfalse x hx)]
  · have htp := total_percentage_pos goals hemp
    rw [if_neg hemp, if_neg (not_le.2 htp)]
    obtain ⟨h1, h2, h3⟩ :=
      allocLoop_spec ((goals.filter autoGoalMatch).map SavingsGoal.auto_allocate_percentage).sum
        amount now htp hamt goals acct amount
    refine ⟨?_, h2, h3⟩
    have hmax : max amount 0 = amount := max_eq_left hamt
    linarith [h1, hmax.le]

/-- witness for auto_allocate_conserves_money at a concrete account and one
auto allocating goal. -/
theorem auto_allocate_conserves_money_witness :
    sumCurrent (auto_allocate_to_goals acct10 [goal10] 20 0).2 - sumCurrent [goal10] ≤ 20 ∧
    (auto_allocate_to_goals acct10 [goal10] 20 0).1.balance =
      acct10.balance -
        (sumCurrent (auto_allocate_to_goals acct10 [goal10] 20 0).2 - sumCurrent [goal10]) ∧
    List.Forall₂
      (allocRel (([goal10].filter autoGoalMatch).map SavingsGoal.auto_allocate_percentage).sum
        20)
      [goal10] (auto_allocate_to_goals acct10 [goal10] 20 0).2 :=
  auto_allocate_conserves_money acct10 [goal10] 20 0 (by norm_num)

end FinanceApp
